import Mathlib

/-!
Verification of the document Q&A backend (FastAPI + Gemini + pypdf).

Shallow embedding of the backend's core pipeline:
  * `src/backend/pdf_processor.py` — PDF text/metadata extraction,
  * `src/backend/prompt_templates.py` — Jinja2 prompt rendering,
  * `src/backend/gemini_client.py` — the model gateway wrapper,
  * `src/backend/models.py` — pydantic request validation,
  * `src/backend/main.py` — the HTTP endpoints.

Python strings are modelled through their character lists; the Python string
methods used by the code (`str.strip`, `str.lower`, `str.endswith`) are
embedded as executable functions over `List Char` below, so that concrete
runs reduce inside the kernel.  `str.strip()`'s whitespace set is modelled by
the six ASCII whitespace characters; `str.lower()` by ASCII lowercasing (all
characters the code ever compares against are ASCII).  The external
collaborators (the pypdf reader and the remote Gemini model) are opaque:
a PDF page is an outcome `Except Unit String` (`error` = the per-page
extraction raised, `ok t` = it returned text `t`), the reader's metadata
a `MetaSource`, and the remote model an oracle `String → Except String String`
mapping the prompt to a completion or a failure message.  Exceptions are
`Except` values carrying the Python exception message.  Real-number
arithmetic (the compression ratio) is modelled exactly over `ℚ`.
-/

set_option maxRecDepth 20000

namespace DocQA

/-! ### Python string primitives over character lists -/

/-- Whitespace characters stripped by Python's `str.strip()` (ASCII subset:
space, tab, newline, carriage return, vertical tab, form feed). -/
def pyIsSpace (c : Char) : Bool :=
  c == ' ' || c == '\t' || c == '\n' || c == '\x0d' || c == '\x0b' || c == '\x0c'

/-- Drop leading whitespace from a character list. -/
def dropLeadingSpace : List Char → List Char
  | [] => []
  | c :: t => if pyIsSpace c then dropLeadingSpace t else c :: t

/-- Python `s.strip()`: remove leading and trailing whitespace. -/
def pyStrip (s : String) : String :=
  String.mk ((dropLeadingSpace ((dropLeadingSpace s.data).reverse)).reverse)

/-- ASCII lowercasing of one character (Python `str.lower` restricted to
ASCII, which covers every comparison the code performs). -/
def asciiLowerChar (c : Char) : Char :=
  if 65 ≤ c.toNat ∧ c.toNat ≤ 90 then Char.ofNat (c.toNat + 32) else c

/-- Python `s.lower()`. -/
def pyLower (s : String) : String := String.mk (s.data.map asciiLowerChar)

/-- Python `s.endswith(suffix)`. -/
def pyEndsWith (s suffix : String) : Bool := List.isSuffixOf suffix.data s.data

/-- Python `sep.join(blocks)`. -/
def joinSep (sep : String) : List String → String
  | [] => ""
  | [b] => b
  | b :: rest => b ++ sep ++ joinSep sep rest

/-- Substring test on character lists: does `needle` occur contiguously in
the second list? -/
def containsSub (needle : List Char) : List Char → Bool
  | [] => needle.isEmpty
  | c :: t => needle.isPrefixOf (c :: t) || containsSub needle t

/-- Substring test on strings (Python's `needle in s`). -/
def strContainsSub (s needle : String) : Bool := containsSub needle.data s.data

/-- Python truthiness of an `Optional[bool]` value. -/
def optBoolTruthy : Option Bool → Bool
  | none => false
  | some b => b

/-- Whether an `Except` value is a success. -/
def exOk {ε α : Type} : Except ε α → Bool
  | Except.ok _ => true
  | Except.error _ => false

instance {ε α : Type} [DecidableEq ε] [DecidableEq α] : DecidableEq (Except ε α) :=
  fun a b =>
    match a, b with
    | Except.ok x, Except.ok y =>
        if h : x = y then isTrue (by rw [h]) else isFalse (by simp [h])
    | Except.error x, Except.error y =>
        if h : x = y then isTrue (by rw [h]) else isFalse (by simp [h])
    | Except.ok _, Except.error _ => isFalse (by simp)
    | Except.error _, Except.ok _ => isFalse (by simp)

/-! ### Text extractor — `src/backend/pdf_processor.py`

`PDFProcessor.extract_text_from_bytes` opens the byte buffer as a document
(a successfully opened document is a `PdfDoc` here: its list of per-page
extraction outcomes plus what the reader reports as metadata), extracts
the metadata best-effort, then walks the pages: a page whose extraction
raises is logged and skipped; a page whose text is non-empty after
`.strip()` contributes a block `"--- Page {i+1} ---\n" + text.strip()`.
If no block was collected it raises
`PDFProcessingError("No text could be extracted from the PDF")`, else it
returns the blocks joined by blank lines together with the metadata dict
extended with `pages_processed`, `total_pages` and `text_length`. -/

/-- The reader's raw metadata record (values of `reader.metadata`), each key
optional. -/
structure ReaderMeta where
  title : Option String
  author : Option String
  subject : Option String
  creator : Option String
  producer : Option String
  creation_date_value : Option String
  modification_date_value : Option String
deriving DecidableEq

/-- What reading `reader.metadata` does: raise, return a falsy value, or
return a metadata mapping. -/
inductive MetaSource where
  | raises
  | absent
  | present (m : ReaderMeta)
deriving DecidableEq

/-- The seven optional document-information fields of the metadata dict
built by `PDFProcessor._extract_metadata`. -/
structure DocMeta where
  title : Option String
  author : Option String
  subject : Option String
  creator : Option String
  producer : Option String
  creation_date : Option String
  modification_date : Option String
deriving DecidableEq

/-- `PDFProcessor._extract_metadata`: start from the all-`None` dict; when the
reader raises, the exception is swallowed and the defaults stand; when the
reader's metadata is falsy, no update happens; otherwise the seven fields are
updated — the two date fields through `str(get(key, ""))`, so they become a
(possibly empty) string rather than staying `None`. -/
def _extract_metadata : MetaSource → DocMeta
  | MetaSource.raises => ⟨none, none, none, none, none, none, none⟩
  | MetaSource.absent => ⟨none, none, none, none, none, none, none⟩
  | MetaSource.present m =>
      ⟨m.title, m.author, m.subject, m.creator, m.producer,
       some (m.creation_date_value.getD ""), some (m.modification_date_value.getD "")⟩

/-- The metadata dict returned by `extract_text_from_bytes`: the document
information plus the three counters added after the page walk. -/
structure ExtractMeta where
  title : Option String
  author : Option String
  subject : Option String
  creator : Option String
  producer : Option String
  creation_date : Option String
  modification_date : Option String
  pages_processed : Nat
  total_pages : Nat
  text_length : Nat
deriving DecidableEq

/-- A byte buffer that opened as a document: the pages' extraction outcomes
(`error` = `page.extract_text()` raised; `ok t` = it returned `t`) and the
reader's metadata behaviour. -/
structure PdfDoc where
  pages : List (Except Unit String)
  meta : MetaSource
deriving DecidableEq

/-- The condition under which the loop keeps a page: extraction succeeded and
the text is non-empty after `.strip()` (`if text.strip():`). -/
def pageYieldsText : Except Unit String → Bool
  | Except.ok t => pyStrip t != ""
  | Except.error _ => false

/-- The page loop of `extract_text_from_bytes`, from 0-based page `i`: a
raising page is skipped (`except ... continue`), a kept page contributes
`"--- Page {i+1} ---\n" + text.strip()`. -/
def pageBlocks (i : Nat) : List (Except Unit String) → List String
  | [] => []
  | p :: rest =>
      match p with
      | Except.error _ => pageBlocks (i + 1) rest
      | Except.ok t =>
          if pyStrip t != "" then
            ("--- Page " ++ toString (i + 1) ++ " ---\n" ++ pyStrip t) :: pageBlocks (i + 1) rest
          else pageBlocks (i + 1) rest

/-- `PDFProcessor.extract_text_from_bytes` on an opened document. -/
def extract_text_from_bytes (doc : PdfDoc) : Except String (String × ExtractMeta) :=
  if (pageBlocks 0 doc.pages).isEmpty then
    Except.error "No text could be extracted from the PDF"
  else
    Except.ok (joinSep "\n\n" (pageBlocks 0 doc.pages),
      { title := (_extract_metadata doc.meta).title
        author := (_extract_metadata doc.meta).author
        subject := (_extract_metadata doc.meta).subject
        creator := (_extract_metadata doc.meta).creator
        producer := (_extract_metadata doc.meta).producer
        creation_date := (_extract_metadata doc.meta).creation_date
        modification_date := (_extract_metadata doc.meta).modification_date
        pages_processed := (pageBlocks 0 doc.pages).length
        total_pages := doc.pages.length
        text_length := (joinSep "\n\n" (pageBlocks 0 doc.pages)).length })

/-- `PDFProcessor.validate_pdf`: true exactly when the bytes open as a
document (page count readable). -/
def validate_pdf (content : Option PdfDoc) : Bool :=
  match content with
  | some _ => true
  | none => false

/-! ### Lemmas about the page loop -/

theorem pageBlocks_nil_iff (i : Nat) (ps : List (Except Unit String)) :
    pageBlocks i ps = [] ↔ ∀ p ∈ ps, pageYieldsText p = false := by
  induction ps generalizing i with
  | nil => simp [pageBlocks]
  | cons p rest ih =>
      cases p with
      | error u =>
          simp only [pageBlocks, List.mem_cons]
          constructor
          · intro h q hq
            rcases hq with hq | hq
            · subst hq; rfl
            · exact ((ih (i + 1)).mp h) q hq
          · intro h
            exact (ih (i + 1)).mpr (fun q hq => h q (Or.inr hq))
      | ok t =>
          simp only [pageBlocks, List.mem_cons]
          by_cases ht : pyStrip t != ""
          · simp only [ht, if_true]
            constructor
            · intro h; exact absurd h (List.cons_ne_nil _ _)
            · intro h
              have := h (Except.ok t) (Or.inl rfl)
              simp only [pageYieldsText] at this
              rw [this] at ht
              exact absurd ht (by simp)
          · simp only [ht, if_false]
            have ht' : pageYieldsText (Except.ok t) = false := by
              simp only [pageYieldsText]
              simpa using ht
            constructor
            · intro h q hq
              rcases hq with hq | hq
              · subst hq; exact ht'
              · exact ((ih (i + 1)).mp h) q hq
            · intro h
              exact (ih (i + 1)).mpr (fun q hq => h q (Or.inr hq))

theorem pageBlocks_length (i : Nat) (ps : List (Except Unit String)) :
    (pageBlocks i ps).length = (ps.filter pageYieldsText).length := by
  induction ps generalizing i with
  | nil => simp [pageBlocks]
  | cons p rest ih =>
      cases p with
      | error u => simp [pageBlocks, List.filter, pageYieldsText, ih (i + 1)]
      | ok t =>
          by_cases ht : pyStrip t != ""
          · simp [pageBlocks, List.filter, pageYieldsText, ht, ih (i + 1)]
          · simp only [Bool.not_eq_true] at ht
            simp [pageBlocks, List.filter, pageYieldsText, ht, ih (i + 1)]

/-! ### Prompt builder — `src/backend/prompt_templates.py`

The three summarization templates and the RAG template are Jinja2 template
strings rendered with default settings.  Their rendering is embedded as
string concatenation: the fixed text between the template tags is kept
verbatim (escaped), the `{% if max_length %}` / `{% if include_sources %}`
blocks become conditionals — note Jinja2 treats the integer `0` as falsy,
exactly like `None` — and `{{ max_length }}` renders `str(n)`. -/

/-- Keys of `SUMMARIZATION_TEMPLATES`, in order. -/
def known_styles : List String := ["concise", "detailed", "bullet_points"]

/-- Fallback of `get_summarization_prompt`: an unknown style key becomes
`"concise"` (`if style not in SUMMARIZATION_TEMPLATES: style = "concise"`). -/
def normStyle (style : String) : String :=
  if known_styles.contains style then style else "concise"

/-- Fixed text of the `concise` template before the `{% if max_length %}`
block. -/
def conciseHead : String :=
  "\nYou are an expert text summarizer. Your task is to create a concise, accurate summary of the provided text.\n\nInstructions:\n- Focus on the main ideas and key points\n- Maintain the original meaning and context\n- Use clear, professional language\n- Avoid unnecessary details or repetition\n"

/-- Fixed text of the `detailed` template before the `{% if max_length %}`
block. -/
def detailedHead : String :=
  "\nYou are an expert text summarizer. Your task is to create a comprehensive, detailed summary of the provided text.\n\nInstructions:\n- Include all major points and important details\n- Organize information logically\n- Maintain the structure and flow of the original text\n- Use clear, professional language\n- Include relevant examples or data points mentioned\n"

/-- Fixed text of the `bullet_points` template before the
`{% if max_length %}` block. -/
def bulletHead : String :=
  "\nYou are an expert text summarizer. Your task is to create a bullet-point summary of the provided text.\n\nInstructions:\n- Extract key points and present them as bullet points\n- Use clear, concise language for each point\n- Organize points logically (chronologically or by importance)\n- Each bullet point should be self-contained and meaningful\n"

/-- Text of the template before the `{% if %}` block, by style key. -/
def styleHead (style : String) : String :=
  if style = "detailed" then detailedHead
  else if style = "bullet_points" then bulletHead
  else conciseHead

/-- Length-constraint line text before `{{ max_length }}`, by style key. -/
def lenLinePre (style : String) : String :=
  if style = "bullet_points" then "\n- Limit to approximately "
  else "\n- Keep the summary to approximately "

/-- Length-constraint line text after `{{ max_length }}`, by style key. -/
def lenLineSuf (style : String) : String :=
  if style = "bullet_points" then " words total across all bullet points\n"
  else " words or less\n"

/-- Closing label of the template (after the text block), by style key.  The
`bullet_points` closing reproduces the template's literal three characters
after `Bullet Point Summary:` (a mojibake bullet). -/
def styleClosing (style : String) : String :=
  if style = "detailed" then "\n\nDetailed Summary:"
  else if style = "bullet_points" then "\n\nBullet Point Summary:\nâ€¢"
  else "\n\nSummary:"

/-- Jinja2 rendering of `SUMMARIZATION_TEMPLATES[style]` for a known style
key: the `{% if max_length %}` block is emitted only when `max_length` is
truthy (present and non-zero). -/
def renderSummarization (style text : String) (max_length : Option Int) : String :=
  styleHead style ++
  (match max_length with
   | none => ""
   | some n => if n = 0 then "" else lenLinePre style ++ toString n ++ lenLineSuf style) ++
  "\n\nText to summarize:\n" ++ text ++ styleClosing style

/-- `get_summarization_prompt(text, max_length, style)`. -/
def get_summarization_prompt (text : String) (max_length : Option Int) (style : String) : String :=
  renderSummarization (normStyle style) text max_length

/-- Fixed text of `RAG_TEMPLATE` before the `{% if include_sources %}`
block. -/
def ragHead : String :=
  "\nYou are an AI assistant specialized in answering questions based on provided context. Your task is to analyze the given context and provide accurate, helpful answers to user questions.\n\nInstructions:\n- Base your answer strictly on the information provided in the context\n- If the context doesn't contain enough information to answer the question, clearly state this\n- Be precise and factual in your responses\n- Use direct quotes from the context when appropriate\n- If asked about something not covered in the context, explain that the information is not available\n"

/-- The optional sources-instruction line of `RAG_TEMPLATE`. -/
def ragSourcesLine : String :=
  "\n- Include references to specific parts of the context that support your answer\n"

/-- `get_rag_prompt(question, context, include_sources)`. -/
def get_rag_prompt (question context : String) (include_sources : Bool) : String :=
  ragHead ++
  (if include_sources then ragSourcesLine else "") ++
  "\n\nContext:\n" ++ context ++ "\n\nQuestion: " ++ question ++ "\n\n" ++
  (if include_sources then
    "\nPlease provide your answer and include source references where applicable.\n\nAnswer:\n"
   else "\nAnswer:\n")

/-! ### Model gateway — `src/backend/gemini_client.py`

`GeminiClient.generate_text` sends the prompt to the remote model; the
remote call's outcome is the oracle's value (`error e` = the API call
raised with message `e`, `ok t` = it returned completion text `t`).  The
wrapper raises `Exception("Empty response from Gemini API")` when
`response.text` is falsy — the raw completion, before any strip — and
otherwise returns `response.text.strip()`; its `except` block re-raises
any exception as `Exception(f"Failed to generate text: {e}")`. -/

/-- `GeminiClient.generate_text` as a function of the remote call's
outcome. -/
def generate_text (remote : Except String String) : Except String String :=
  match remote with
  | Except.error e => Except.error ("Failed to generate text: " ++ e)
  | Except.ok t =>
      if t = "" then
        Except.error ("Failed to generate text: " ++ "Empty response from Gemini API")
      else Except.ok (pyStrip t)

/-! ### Request validation — `src/backend/models.py`

The pydantic models validate the JSON bodies before the route handlers run.
`SummarizeRequest`: `text` with `min_length=1, max_length=50000`,
`max_length` optional with `ge=10, le=1000`.  `QueryRequest`: `question`
with `min_length=1, max_length=1000`, `context` with
`min_length=1, max_length=50000`.  pydantic's length constraints count raw
characters — no trimming happens.  A violation is reported with the
offending field's name (the transport then answers 422). -/

/-- Validation of `SummarizeRequest`; `error f` names the offending field. -/
def validateSummarizeRequest (text : String) (max_length : Option Int) : Except String Unit :=
  if text.length < 1 then Except.error "text"
  else if 50000 < text.length then Except.error "text"
  else
    match max_length with
    | none => Except.ok ()
    | some n =>
        if n < 10 then Except.error "max_length"
        else if 1000 < n then Except.error "max_length"
        else Except.ok ()

/-- Validation of `QueryRequest`; `error f` names the offending field. -/
def validateQueryRequest (question context : String) : Except String Unit :=
  if question.length < 1 then Except.error "question"
  else if 1000 < question.length then Except.error "question"
  else if context.length < 1 then Except.error "context"
  else if 50000 < context.length then Except.error "context"
  else Except.ok ()

/-! ### Endpoints — `src/backend/main.py` -/

/-- `SummarizeResponse` (response model). -/
structure SummarizeResponseM where
  summary : String
  original_length : Nat
  summary_length : Nat
  compression_ratio : ℚ
  source_type : String
  pdf_metadata : Option ExtractMeta
deriving DecidableEq

/-- `QueryResponse` (response model). -/
structure QueryResponseM where
  answer : String
  confidence : Option ℚ
  sources : Option (List String)
  source_type : String
  pdf_metadata : Option ExtractMeta
deriving DecidableEq

/-- Outcome of a summarize endpoint call: a response, or an
`HTTPException(status_code, detail)` surfaced to the caller. -/
inductive SummarizeOutcome where
  | ok (resp : SummarizeResponseM)
  | httpError (status_code : Nat) (detail : String)
deriving DecidableEq

/-- Outcome of a query endpoint call. -/
inductive QueryOutcome where
  | ok (resp : QueryResponseM)
  | httpError (status_code : Nat) (detail : String)
deriving DecidableEq

/-- Python `style or "concise"` on the request's optional style field. -/
def styleOrConcise : Option String → String
  | none => "concise"
  | some s => if s = "" then "concise" else s

/-- Metric computation shared by `summarize_text` (main.py lines 124-135)
and `summarize_pdf` (lines 254-266): `original_length = len(text)`,
`summary_length = len(summary)`,
`compression_ratio = summary_length / original_length if original_length > 0 else 0`. -/
def build_summarize_response (text_resolved summary : String)
    (source_type : String) (pdf_metadata : Option ExtractMeta) : SummarizeResponseM :=
  { summary := summary
    original_length := text_resolved.length
    summary_length := summary.length
    compression_ratio :=
      if 0 < text_resolved.length then
        (summary.length : ℚ) / (text_resolved.length : ℚ)
      else 0
    source_type := source_type
    pdf_metadata := pdf_metadata }

/-- `POST /summarize` (`summarize_text` in main.py): pydantic validation,
then `gemini_client.summarize_text` (prompt rendering + `generate_text`),
then response shaping; any exception becomes
`HTTPException(500, f"Summarization failed: {e}")`. -/
def summarize_endpoint (text : String) (max_length : Option Int) (style : Option String)
    (oracle : String → Except String String) : SummarizeOutcome :=
  match validateSummarizeRequest text max_length with
  | Except.error f => SummarizeOutcome.httpError 422 ("Invalid request field: " ++ f)
  | Except.ok _ =>
      match generate_text (oracle (get_summarization_prompt text max_length (styleOrConcise style))) with
      | Except.error e => SummarizeOutcome.httpError 500 ("Summarization failed: " ++ e)
      | Except.ok summary => SummarizeOutcome.ok (build_summarize_response text summary "text" none)

/-- `POST /query` (`query_document` in main.py): pydantic validation, then
`gemini_client.answer_question`, then response shaping with
`confidence=None` and `sources=None if not request.include_sources else []`;
any exception becomes `HTTPException(500, f"Query processing failed: {e}")`. -/
def query_endpoint (question context : String) (include_sources : Option Bool)
    (oracle : String → Except String String) : QueryOutcome :=
  match validateQueryRequest question context with
  | Except.error f => QueryOutcome.httpError 422 ("Invalid request field: " ++ f)
  | Except.ok _ =>
      match generate_text (oracle (get_rag_prompt question context (optBoolTruthy include_sources))) with
      | Except.error e => QueryOutcome.httpError 500 ("Query processing failed: " ++ e)
      | Except.ok answer =>
          QueryOutcome.ok
            { answer := answer
              confidence := none
              sources := if optBoolTruthy include_sources then some [] else none
              source_type := "text"
              pdf_metadata := none }

/-- A multipart PDF upload: the submitted filename and the uploaded bytes,
the latter abstracted to whether they open as a document (`some doc`) or not
(`none`; then `validate_pdf` returns false). -/
structure PdfUpload where
  filename : String
  content : Option PdfDoc

/-- `POST /summarize-pdf` (`summarize_pdf` in main.py): reject unless
`file.filename.lower().endswith('.pdf')`; reject bytes failing
`validate_pdf`; extract text (a `PDFProcessingError` becomes
`HTTPException(400, f"PDF processing failed: {e}")`); then summarize as in
`/summarize`, a generation failure becoming
`HTTPException(500, f"PDF summarization failed: {e}")`. -/
def summarize_pdf_endpoint (upload : PdfUpload) (max_length : Option Int) (style : String)
    (oracle : String → Except String String) : SummarizeOutcome :=
  if pyEndsWith (pyLower upload.filename) ".pdf" = false then
    SummarizeOutcome.httpError 400 "Only PDF files are supported"
  else if validate_pdf upload.content = false then
    SummarizeOutcome.httpError 400 "Invalid PDF file"
  else
    match upload.content with
    | none => SummarizeOutcome.httpError 400 "Invalid PDF file"
    | some doc =>
        match extract_text_from_bytes doc with
        | Except.error e => SummarizeOutcome.httpError 400 ("PDF processing failed: " ++ e)
        | Except.ok (text_content, pdf_metadata) =>
            match generate_text (oracle (get_summarization_prompt text_content max_length
                (styleOrConcise (some style)))) with
            | Except.error e => SummarizeOutcome.httpError 500 ("PDF summarization failed: " ++ e)
            | Except.ok summary =>
                SummarizeOutcome.ok
                  (build_summarize_response text_content summary "pdf" (some pdf_metadata))

/-- `POST /query-pdf` (`query_pdf` in main.py): reject a blank question
(`if not question.strip()`), then the `.pdf` filename gate, then
`validate_pdf`, extraction and the RAG call, shaping the response with
`sources=None if not include_sources else []`. -/
def query_pdf_endpoint (upload : PdfUpload) (question : String) (include_sources : Bool)
    (oracle : String → Except String String) : QueryOutcome :=
  if pyStrip question = "" then
    QueryOutcome.httpError 400 "Question cannot be empty"
  else if pyEndsWith (pyLower upload.filename) ".pdf" = false then
    QueryOutcome.httpError 400 "Only PDF files are supported"
  else if validate_pdf upload.content = false then
    QueryOutcome.httpError 400 "Invalid PDF file"
  else
    match upload.content with
    | none => QueryOutcome.httpError 400 "Invalid PDF file"
    | some doc =>
        match extract_text_from_bytes doc with
        | Except.error e => QueryOutcome.httpError 400 ("PDF processing failed: " ++ e)
        | Except.ok (text_content, pdf_metadata) =>
            match generate_text (oracle (get_rag_prompt question text_content include_sources)) with
            | Except.error e => QueryOutcome.httpError 500 ("PDF query processing failed: " ++ e)
            | Except.ok answer =>
                QueryOutcome.ok
                  { answer := answer
                    confidence := none
                    sources := if include_sources then some [] else none
                    source_type := "pdf"
                    pdf_metadata := some pdf_metadata }

/-- The HTTP reply the caller sees for a summarize request: status code and
the error detail (empty for a success).  `HTTPException`s raised in the
route are passed through by FastAPI with their own detail — the `debug`
setting is not consulted on that path, which is why this function ignores
it. -/
structure HttpReplyM where
  status_code : Nat
  detail : String
deriving DecidableEq

/-- Transport-level reply for `POST /summarize`: route outcome mapped to
status and detail.  `debug` is threaded through to mirror `settings.debug`
but no code on this path reads it. -/
def serve_summarize (debug : Bool) (text : String) (max_length : Option Int)
    (style : Option String) (oracle : String → Except String String) : HttpReplyM :=
  match debug, summarize_endpoint text max_length style oracle with
  | _, SummarizeOutcome.ok _ => ⟨200, ""⟩
  | _, SummarizeOutcome.httpError code d => ⟨code, d⟩

/-- `ErrorResponse` (models.py) as produced by the global exception
handler. -/
structure ErrorResponseM where
  error : String
  detail : Option String
deriving DecidableEq

/-- `global_exception_handler` (main.py lines 56-66): 500 with
`detail = str(exc) if settings.debug else "An unexpected error occurred"`.
It only sees exceptions no route handler converted to an `HTTPException`. -/
def global_exception_handler (debug : Bool) (exc : String) : Nat × ErrorResponseM :=
  (500, ⟨"Internal server error", some (if debug then exc else "An unexpected error occurred")⟩)

/-! ### String lemmas -/

theorem head?_append_left (l₁ l₂ : List Char) (h : l₁ ≠ []) :
    (l₁ ++ l₂).head? = l₁.head? := by
  cases l₁ with
  | nil => exact absurd rfl h
  | cons c t => rfl

/-- Two strings differ when one is a fixed prefix (with a first character)
followed by anything and the other starts with a different character. -/
theorem append_ne_fixed (pre e t : String) (hne : pre.data ≠ [])
    (h : pre.data.head? ≠ t.data.head?) : pre ++ e ≠ t := by
  intro heq
  apply h
  have hh : (pre ++ e).data.head? = pre.data.head? := by
    rw [String.data_append, head?_append_left _ _ hne]
  rw [← hh, heq]

theorem isPrefixOf_append_self (n r : List Char) : n.isPrefixOf (n ++ r) = true := by
  induction n with
  | nil => simp [List.isPrefixOf]
  | cons c t ih => simp [List.isPrefixOf, ih]

theorem containsSub_append_right (n l r : List Char) (h : containsSub n r = true) :
    containsSub n (l ++ r) = true := by
  induction l with
  | nil => simp only [List.nil_append]; exact h
  | cons c t ih => simp [containsSub, ih]

theorem containsSub_here (n r : List Char) : containsSub n (n ++ r) = true := by
  cases n with
  | nil => cases r <;> simp [containsSub, List.isPrefixOf]
  | cons c t =>
      have h : List.isPrefixOf (c :: t) (c :: (t ++ r)) = true := by
        have h0 := isPrefixOf_append_self (c :: t) r
        rw [List.cons_append] at h0
        exact h0
      simp [containsSub, h]

/-- A string of the shape `a ++ (n ++ b)` contains `n` as a substring. -/
theorem strContainsSub_middle (a n b : String) :
    strContainsSub (a ++ (n ++ b)) n = true := by
  unfold strContainsSub
  rw [String.data_append, String.data_append]
  exact containsSub_append_right _ _ _ (containsSub_here _ _)

/-! ### Claims -/

/-- C1, counterexample.  The claim reads "if at least one page yields
non-empty text, extraction succeeds": a document whose single page yields
the non-empty text `" "` refutes it — the code tests `text.strip()`, so the
page is dropped and extraction fails with the NoText error. -/
theorem c1_counterexample :
    (" " : String) ≠ "" ∧
    extract_text_from_bytes ⟨[Except.ok " "], MetaSource.absent⟩ =
      Except.error "No text could be extracted from the PDF" := by
  exact ⟨by decide, by decide⟩

/-- C1 (amended).  For every opened document: if every page either raises or
yields text that is empty after stripping, `extract_text_from_bytes` fails
with the NoText error; if at least one page yields text non-empty after
stripping, it succeeds, `pages_processed` equals the count of pages whose
text strips to non-empty (raising pages skipped, not propagated), and
`total_pages` is the page count. -/
theorem c1_extract_pages (doc : PdfDoc) :
    ((∀ p ∈ doc.pages, ∀ t, p = Except.ok t → pyStrip t = "") →
      extract_text_from_bytes doc = Except.error "No text could be extracted from the PDF") ∧
    ((∃ p ∈ doc.pages, ∃ t, p = Except.ok t ∧ pyStrip t ≠ "") →
      ∃ full meta, extract_text_from_bytes doc = Except.ok (full, meta) ∧
        meta.pages_processed = (doc.pages.filter pageYieldsText).length ∧
        meta.total_pages = doc.pages.length) := by
  constructor
  · intro h
    have hall : ∀ p ∈ doc.pages, pageYieldsText p = false := by
      intro p hp
      cases p with
      | error u => rfl
      | ok t =>
          have ht := h _ hp t rfl
          simp [pageYieldsText, ht]
    have hnil : pageBlocks 0 doc.pages = [] := (pageBlocks_nil_iff 0 doc.pages).mpr hall
    simp [extract_text_from_bytes, hnil]
  · rintro ⟨p, hp, t, rfl, hne⟩
    have hyes : pageYieldsText (Except.ok t) = true := by simp [pageYieldsText, hne]
    have hnn : pageBlocks 0 doc.pages ≠ [] := by
      intro hnil
      have hfalse := (pageBlocks_nil_iff 0 doc.pages).mp hnil _ hp
      rw [hyes] at hfalse
      exact absurd hfalse (by simp)
    have hne2 : (pageBlocks 0 doc.pages).isEmpty = false := by
      cases hpb : pageBlocks 0 doc.pages with
      | nil => exact absurd hpb hnn
      | cons a l => rfl
    refine ⟨joinSep "\n\n" (pageBlocks 0 doc.pages),
      { title := (_extract_metadata doc.meta).title
        author := (_extract_metadata doc.meta).author
        subject := (_extract_metadata doc.meta).subject
        creator := (_extract_metadata doc.meta).creator
        producer := (_extract_metadata doc.meta).producer
        creation_date := (_extract_metadata doc.meta).creation_date
        modification_date := (_extract_metadata doc.meta).modification_date
        pages_processed := (pageBlocks 0 doc.pages).length
        total_pages := doc.pages.length
        text_length := (joinSep "\n\n" (pageBlocks 0 doc.pages)).length }, ?_, ?_, ?_⟩
    · simp [extract_text_from_bytes, hne2]
    · exact pageBlocks_length 0 doc.pages
    · rfl

/-- C9.  Metadata extraction is best-effort and independent of text
extraction: when reading the reader's metadata raises, the swallowed failure
leaves the seven optional fields absent; and for any fixed pages, changing
the metadata outcome changes neither whether `extract_text_from_bytes`
succeeds, nor the extracted text, nor the page counters. -/
theorem c9_metadata_best_effort (pages : List (Except Unit String)) (m₁ m₂ : MetaSource) :
    _extract_metadata MetaSource.raises = ⟨none, none, none, none, none, none, none⟩ ∧
    exOk (extract_text_from_bytes ⟨pages, m₁⟩) = exOk (extract_text_from_bytes ⟨pages, m₂⟩) ∧
    Except.map Prod.fst (extract_text_from_bytes ⟨pages, m₁⟩)
      = Except.map Prod.fst (extract_text_from_bytes ⟨pages, m₂⟩) ∧
    Except.map (fun r => ((r.2).pages_processed, (r.2).total_pages, (r.2).text_length))
        (extract_text_from_bytes ⟨pages, m₁⟩)
      = Except.map (fun r => ((r.2).pages_processed, (r.2).total_pages, (r.2).text_length))
        (extract_text_from_bytes ⟨pages, m₂⟩) := by
  refine ⟨rfl, ?_, ?_, ?_⟩ <;>
    cases h : (pageBlocks 0 pages).isEmpty <;>
      simp [extract_text_from_bytes, h, exOk, Except.map]

/-- C2.  Whenever a summarize operation succeeds, the response satisfies:
`original_length` is the character length of the resolved input text (the
request text for `/summarize`, the extracted text for `/summarize-pdf`),
`summary_length` is the character length of the generated summary,
`compression_ratio` equals `summary_length / original_length` exactly (over
`ℚ`) when `original_length > 0`, and `0` when `original_length = 0`. -/
theorem c2_compression_metrics (text : String) (max_length : Option Int) (style : Option String)
    (oracle : String → Except String String) (resp : SummarizeResponseM)
    (h : summarize_endpoint text max_length style oracle = SummarizeOutcome.ok resp) :
    (resp.original_length = text.length ∧
     resp.summary_length = resp.summary.length ∧
     (0 < resp.original_length →
        resp.compression_ratio = (resp.summary_length : ℚ) / (resp.original_length : ℚ)) ∧
     (resp.original_length = 0 → resp.compression_ratio = 0)) ∧
    (∀ (upload : PdfUpload) (ml₂ : Option Int) (st₂ : String)
       (oracle₂ : String → Except String String) (resp₂ : SummarizeResponseM) (doc : PdfDoc),
       upload.content = some doc →
       summarize_pdf_endpoint upload ml₂ st₂ oracle₂ = SummarizeOutcome.ok resp₂ →
       ∃ t m, extract_text_from_bytes doc = Except.ok (t, m) ∧
         resp₂.original_length = t.length ∧
         resp₂.summary_length = resp₂.summary.length ∧
         (0 < resp₂.original_length →
            resp₂.compression_ratio = (resp₂.summary_length : ℚ) / (resp₂.original_length : ℚ)) ∧
         (resp₂.original_length = 0 → resp₂.compression_ratio = 0)) := by
  constructor
  · unfold summarize_endpoint at h
    split at h
    · exact absurd h (by simp)
    · split at h
      · exact absurd h (by simp)
      · rename_i summary heq
        have hb : build_summarize_response text summary "text" none = resp := by
          simpa using h
        subst hb
        refine ⟨rfl, rfl, ?_, ?_⟩
        · intro h0
          simp only [build_summarize_response] at h0 ⊢
          rw [if_pos h0]
        · intro h0
          simp only [build_summarize_response] at h0 ⊢
          rw [if_neg (by omega)]
  · intro upload ml₂ st₂ oracle₂ resp₂ doc hcontent h₂
    unfold summarize_pdf_endpoint at h₂
    rw [hcontent] at h₂
    simp only [validate_pdf] at h₂
    split at h₂
    · exact absurd h₂ (by simp)
    · split at h₂
      · exact absurd h₂ (by simp)
      · split at h₂
        · exact absurd h₂ (by simp)
        · rename_i text_content pdf_metadata hext
          split at h₂
          · exact absurd h₂ (by simp)
          · rename_i summary hgen
            refine ⟨text_content, pdf_metadata, hext, ?_⟩
            have hb : build_summarize_response text_content summary "pdf" (some pdf_metadata)
                = resp₂ := by simpa using h₂
            subst hb
            refine ⟨rfl, rfl, ?_, ?_⟩
            · intro h0
              simp only [build_summarize_response] at h0 ⊢
              rw [if_pos h0]
            · intro h0
              simp only [build_summarize_response] at h0 ⊢
              rw [if_neg (by omega)]

/-- C2, witness: a concrete successful run of `/summarize` with a stub
model returning `"a"` for the 2-character text `"ab"`, whose compression
ratio is exactly `1/2`. -/
theorem c2_witness :
    summarize_endpoint "ab" none (some "concise") (fun _ => Except.ok "a")
        = SummarizeOutcome.ok (build_summarize_response "ab" (pyStrip "a") "text" none) ∧
    (build_summarize_response "ab" (pyStrip "a") "text" none).original_length = 2 ∧
    (build_summarize_response "ab" (pyStrip "a") "text" none).compression_ratio = 1 / 2 := by
  have h : summarize_endpoint "ab" none (some "concise") (fun _ => Except.ok "a")
      = SummarizeOutcome.ok (build_summarize_response "ab" (pyStrip "a") "text" none) := rfl
  obtain ⟨⟨h1, h2, h3, h4⟩, hpdf⟩ :=
    c2_compression_metrics "ab" none (some "concise") (fun _ => Except.ok "a") _ h
  refine ⟨h, ?_, ?_⟩
  · rw [h1]; decide
  · have h0 : 0 < (build_summarize_response "ab" (pyStrip "a") "text" none).original_length := by
      rw [h1]; decide
    have hs : (build_summarize_response "ab" (pyStrip "a") "text" none).summary_length = 1 := by
      decide
    have ho : (build_summarize_response "ab" (pyStrip "a") "text" none).original_length = 2 := by
      decide
    rw [h3 h0, hs, ho]
    norm_num

/-- C3, counterexample.  The emptiness check runs on the raw completion
before stripping: for the whitespace-only completion `" "`, `generate_text`
succeeds and returns the empty string, refuting "the returned string is
non-empty" on success. -/
theorem c3_counterexample :
    generate_text (Except.ok " ") = Except.ok "" ∧ (" " : String) ≠ "" := by
  exact ⟨rfl, by decide⟩

/-- C3 (amended).  An exactly-empty completion fails with the EmptyResponse
generation error; on success the returned string is the stripped completion,
and it is non-empty provided the completion contains a non-whitespace
character (a whitespace-only completion passes the emptiness check and
yields the empty string); remote failures are wrapped as generation
errors. -/
theorem c3_trim_and_empty (t : String) :
    generate_text (Except.ok "") =
      Except.error "Failed to generate text: Empty response from Gemini API" ∧
    (t ≠ "" → generate_text (Except.ok t) = Except.ok (pyStrip t)) ∧
    (pyStrip t ≠ "" →
      generate_text (Except.ok t) = Except.ok (pyStrip t) ∧ pyStrip t ≠ "") ∧
    (∀ e, generate_text (Except.error e) = Except.error ("Failed to generate text: " ++ e)) := by
  refine ⟨rfl, ?_, ?_, fun e => rfl⟩
  · intro h
    simp [generate_text, h]
  · intro h
    have ht : t ≠ "" := by
      intro he
      subst he
      exact h rfl
    refine ⟨?_, h⟩
    simp [generate_text, ht]

/-- C3, witness: the completion `" hi "` is returned stripped to `"hi"`. -/
theorem c3_witness :
    generate_text (Except.ok " hi ") = Except.ok "hi" ∧ ("hi" : String) ≠ "" := by
  have h := (c3_trim_and_empty " hi ").2.1 (by decide)
  constructor
  · rw [h]; decide
  · decide

/-- Characterization of `SummarizeRequest` validation: raw character-count
bounds, no trimming. -/
theorem validateSummarize_ok_iff (text : String) (max_length : Option Int) :
    validateSummarizeRequest text max_length = Except.ok () ↔
      (1 ≤ text.length ∧ text.length ≤ 50000 ∧
       ∀ n, max_length = some n → 10 ≤ n ∧ n ≤ 1000) := by
  cases max_length with
  | none =>
      unfold validateSummarizeRequest
      by_cases h1 : text.length < 1
      · rw [if_pos h1]
        simp
        omega
      · rw [if_neg h1]
        by_cases h2 : 50000 < text.length
        · rw [if_pos h2]
          simp
          omega
        · rw [if_neg h2]
          simp
          omega
  | some m =>
      unfold validateSummarizeRequest
      by_cases h1 : text.length < 1
      · rw [if_pos h1]
        simp
        omega
      · rw [if_neg h1]
        by_cases h2 : 50000 < text.length
        · rw [if_pos h2]
          simp
          omega
        · rw [if_neg h2]
          by_cases h3 : m < 10
          · simp [h3]
          · by_cases h4 : 1000 < m
            · simp [h3, h4]
            · simp [h3, h4]
              omega

/-- Characterization of `QueryRequest` validation: raw character-count
bounds, no trimming. -/
theorem validateQuery_ok_iff (question context : String) :
    validateQueryRequest question context = Except.ok () ↔
      (1 ≤ question.length ∧ question.length ≤ 1000 ∧
       1 ≤ context.length ∧ context.length ≤ 50000) := by
  unfold validateQueryRequest
  by_cases h1 : question.length < 1
  · rw [if_pos h1]
    simp
    omega
  · rw [if_neg h1]
    by_cases h2 : 1000 < question.length
    · rw [if_pos h2]
      simp
      omega
    · rw [if_neg h2]
      by_cases h3 : context.length < 1
      · rw [if_pos h3]
        simp
        omega
      · rw [if_neg h3]
        by_cases h4 : 50000 < context.length
        · rw [if_pos h4]
          simp
          omega
        · rw [if_neg h4]
          simp
          omega

/-- C4, counterexample.  pydantic's `min_length=1` counts raw characters and
performs no trimming: the whitespace-only text `" "` (which is empty after
trimming) passes validation on both request models, and the pipeline
proceeds all the way to generation — refuting "text and context must be
non-empty after trimming". -/
theorem c4_counterexample :
    pyStrip " " = "" ∧
    validateSummarizeRequest " " none = Except.ok () ∧
    validateQueryRequest " " " " = Except.ok () ∧
    summarize_endpoint " " none (some "concise") (fun _ => Except.ok "S")
      = SummarizeOutcome.ok (build_summarize_response " " (pyStrip "S") "text" none) := by
  exact ⟨by decide, by decide, by decide, rfl⟩

/-- C4 (amended).  Validation runs before any pipeline step and checks raw
(untrimmed) character counts: `text` and `context` must have length in
`[1, 50000]`, `question` in `[1, 1000]`, and `max_length`, when provided,
must lie in `[10, 1000]`; a violation is reported with the offending field
and the endpoints answer 422 without consulting the model.  Whitespace-only
strings pass (no trimming happens). -/
theorem c4_validation (text question context : String) (max_length : Option Int)
    (style : Option String) (include_sources : Option Bool) (f₁ f₂ : String)
    (oracle : String → Except String String) :
    (validateSummarizeRequest text max_length = Except.ok () ↔
      (1 ≤ text.length ∧ text.length ≤ 50000 ∧
       ∀ n, max_length = some n → 10 ≤ n ∧ n ≤ 1000)) ∧
    (validateQueryRequest question context = Except.ok () ↔
      (1 ≤ question.length ∧ question.length ≤ 1000 ∧
       1 ≤ context.length ∧ context.length ≤ 50000)) ∧
    (validateSummarizeRequest text max_length = Except.error f₁ →
      summarize_endpoint text max_length style oracle
        = SummarizeOutcome.httpError 422 ("Invalid request field: " ++ f₁)) ∧
    (validateQueryRequest question context = Except.error f₂ →
      query_endpoint question context include_sources oracle
        = QueryOutcome.httpError 422 ("Invalid request field: " ++ f₂)) := by
  refine ⟨validateSummarize_ok_iff text max_length, validateQuery_ok_iff question context, ?_, ?_⟩
  · intro h
    simp [summarize_endpoint, h]
  · intro h
    simp [query_endpoint, h]

/-- C4, witness: the empty text is rejected with the `text` field before any
generation, via the amended characterization. -/
theorem c4_witness :
    summarize_endpoint "" none (some "concise") (fun _ => Except.ok "S")
      = SummarizeOutcome.httpError 422 ("Invalid request field: " ++ "text") ∧
    query_endpoint "" "ctx" none (fun _ => Except.ok "A")
      = QueryOutcome.httpError 422 ("Invalid request field: " ++ "question") := by
  constructor
  · exact (c4_validation "" "" "ctx" none (some "concise") none "text" "question"
      (fun _ => Except.ok "S")).2.2.1 (by decide)
  · exact (c4_validation "" "" "ctx" none (some "concise") none "text" "question"
      (fun _ => Except.ok "A")).2.2.2 (by decide)

/-- C5, counterexample.  Jinja2 treats the integer `0` as falsy exactly like
`None`: for the provided integer `maxLengthWords = 0` the rendered prompt
contains no length-constraint line at all (not even the word
"approximately", let alone the integer), refuting "for any provided integer
the rendered prompt contains that integer". -/
theorem c5_counterexample :
    strContainsSub (get_summarization_prompt "hello" (some 0) "concise") "approximately" = false ∧
    strContainsSub (get_summarization_prompt "hello" (some 0) "concise") "0" = false ∧
    get_summarization_prompt "hello" (some 0) "concise"
      = get_summarization_prompt "hello" none "concise" := by
  refine ⟨by decide, by decide, rfl⟩

/-- C5 (amended).  When `maxLengthWords` is `None` the rendered prompt is
the template around the text with no length-constraint line; a provided
integer `0` renders identically to `None` (Jinja2 falsiness); for any
provided non-zero integer, the rendered prompt contains the
length-constraint line and, in particular, that integer's decimal
rendering. -/
theorem c5_length_constraint (text style : String) (n : Int) (h : n ≠ 0) :
    get_summarization_prompt text none style
      = styleHead (normStyle style) ++ "\n\nText to summarize:\n" ++ text
          ++ styleClosing (normStyle style) ∧
    get_summarization_prompt text (some 0) style = get_summarization_prompt text none style ∧
    get_summarization_prompt text (some n) style
      = styleHead (normStyle style)
          ++ (lenLinePre (normStyle style) ++ toString n ++ lenLineSuf (normStyle style))
          ++ "\n\nText to summarize:\n" ++ text ++ styleClosing (normStyle style) ∧
    strContainsSub (get_summarization_prompt text (some n) style) (toString n) = true := by
  have hsome : get_summarization_prompt text (some n) style
      = styleHead (normStyle style)
          ++ (lenLinePre (normStyle style) ++ toString n ++ lenLineSuf (normStyle style))
          ++ "\n\nText to summarize:\n" ++ text ++ styleClosing (normStyle style) := by
    simp only [get_summarization_prompt, renderSummarization]
    rw [if_neg h]
  refine ⟨?_, rfl, hsome, ?_⟩
  · simp only [get_summarization_prompt, renderSummarization]
    rw [String.append_empty]
  · rw [hsome]
    unfold strContainsSub
    simp only [String.data_append, List.append_assoc]
    exact containsSub_append_right _ _ _
      (containsSub_append_right _ _ _ (containsSub_here _ _))

/-- C5, witness: a non-zero length bound (50) appears in the rendered
concise prompt. -/
theorem c5_witness :
    get_summarization_prompt "doc" (some 50) "concise"
      = styleHead (normStyle "concise")
          ++ (lenLinePre (normStyle "concise") ++ toString (50 : Int)
              ++ lenLineSuf (normStyle "concise"))
          ++ "\n\nText to summarize:\n" ++ "doc" ++ styleClosing (normStyle "concise") ∧
    strContainsSub (get_summarization_prompt "doc" (some 50) "concise") (toString (50 : Int))
      = true := by
  have h := c5_length_constraint "doc" "concise" 50 (by decide)
  exact ⟨h.2.2.1, h.2.2.2⟩

/-- C6.  An unknown style key falls back to `"concise"`: for any style not
among the template keys, `get_summarization_prompt` returns output identical
to the `"concise"` output (and, being a total function, never raises). -/
theorem c6_unknown_style (text : String) (max_length : Option Int) (style : String)
    (h : known_styles.contains style = false) :
    get_summarization_prompt text max_length style
      = get_summarization_prompt text max_length "concise" := by
  unfold get_summarization_prompt normStyle
  rw [h]
  simp

/-- C6, witness: the unknown style `"invalid_style"` renders identically to
`"concise"`. -/
theorem c6_witness :
    known_styles.contains "invalid_style" = false ∧
    get_summarization_prompt "doc" none "invalid_style"
      = get_summarization_prompt "doc" none "concise" :=
  ⟨by decide, c6_unknown_style "doc" none "invalid_style" (by decide)⟩

/-- C7.  For every successful answer/query operation (both `/query` and
`/query-pdf`), the response's `sources` field is the empty list when
`includeSources` is truthy and absent (`None`) otherwise; it is never
populated with actual citations under any input. -/
theorem c7_sources_no_op (question context : String) (include_sources : Option Bool)
    (include_sources_pdf : Bool) (upload : PdfUpload)
    (oracle : String → Except String String) (resp : QueryResponseM) :
    (query_endpoint question context include_sources oracle = QueryOutcome.ok resp →
      resp.sources = (if optBoolTruthy include_sources then some [] else none) ∧
      ∀ l, resp.sources = some l → l = ([] : List String)) ∧
    (query_pdf_endpoint upload question include_sources_pdf oracle = QueryOutcome.ok resp →
      resp.sources = (if include_sources_pdf then some [] else none) ∧
      ∀ l, resp.sources = some l → l = ([] : List String)) := by
  constructor
  · intro h
    unfold query_endpoint at h
    split at h
    · exact absurd h (by simp)
    · split at h
      · exact absurd h (by simp)
      · have hb : resp.sources = (if optBoolTruthy include_sources then some [] else none) := by
          rw [QueryOutcome.ok.injEq] at h
          rw [← h]
        refine ⟨hb, ?_⟩
        intro l hl
        rw [hb] at hl
        by_cases hs : optBoolTruthy include_sources
        · rw [if_pos hs] at hl
          exact (Option.some.injEq _ _ ▸ hl).symm
        · rw [if_neg hs] at hl
          exact absurd hl (by simp)
  · intro h
    unfold query_pdf_endpoint at h
    split at h
    · exact absurd h (by simp)
    · split at h
      · exact absurd h (by simp)
      · split at h
        · exact absurd h (by simp)
        · split at h
          · exact absurd h (by simp)
          · split at h
            · exact absurd h (by simp)
            · split at h
              · exact absurd h (by simp)
              · have hb : resp.sources = (if include_sources_pdf then some [] else none) := by
                  rw [QueryOutcome.ok.injEq] at h
                  rw [← h]
                refine ⟨hb, ?_⟩
                intro l hl
                rw [hb] at hl
                by_cases hs : include_sources_pdf
                · rw [if_pos hs] at hl
                  exact (Option.some.injEq _ _ ▸ hl).symm
                · rw [if_neg hs] at hl
                  exact absurd hl (by simp)

/-- C7, witness: a concrete successful `/query` run with sources requested
yields `sources = some []`, and with sources not requested yields
`sources = none`. -/
theorem c7_witness :
    (query_endpoint "What is X?" "ctx" (some true) (fun _ => Except.ok "An answer.")
        = QueryOutcome.ok
            { answer := pyStrip "An answer.", confidence := none, sources := some [],
              source_type := "text", pdf_metadata := none }) ∧
    (query_endpoint "What is X?" "ctx" none (fun _ => Except.ok "An answer.")
        = QueryOutcome.ok
            { answer := pyStrip "An answer.", confidence := none, sources := none,
              source_type := "text", pdf_metadata := none }) := by
  exact ⟨by decide, by decide⟩

/-- C8, counterexample.  A generation failure on `/summarize` is caught in
the route handler and converted to `HTTPException(500, f"Summarization
failed: {e}")` — the underlying reason is surfaced even with debug mode
disabled, refuting "a generic message (with no underlying reason) when
debug mode is disabled": here debug is off and the detail still names the
empty-response reason. -/
theorem c8_counterexample :
    serve_summarize false "document" none (some "concise") (fun _ => Except.ok "")
      = ⟨500, "Summarization failed: Failed to generate text: Empty response from Gemini API"⟩ ∧
    strContainsSub
        "Summarization failed: Failed to generate text: Empty response from Gemini API"
        "Empty response" = true ∧
    "Summarization failed: Failed to generate text: Empty response from Gemini API"
      ≠ "An unexpected error occurred" := by
  refine ⟨by decide, by decide, by decide⟩

/-- C8 (amended).  For every generation failure on `/summarize` the caller
receives a 500 whose detail is `"Summarization failed: <reason>"` containing
the underlying reason regardless of the debug setting (the route converts
the exception to an `HTTPException`, whose detail FastAPI passes through);
the debug-gated generic message exists only in the global exception handler,
which serves exceptions no route converted. -/
theorem c8_debug_gating (debug₁ debug₂ : Bool) (text : String) (max_length : Option Int)
    (style : Option String) (oracle : String → Except String String) (e msg : String) :
    serve_summarize debug₁ text max_length style oracle
      = serve_summarize debug₂ text max_length style oracle ∧
    (validateSummarizeRequest text max_length = Except.ok () →
      serve_summarize debug₁ text max_length style (fun _ => Except.error e)
        = ⟨500, "Summarization failed: " ++ ("Failed to generate text: " ++ e)⟩) ∧
    global_exception_handler true msg = (500, ⟨"Internal server error", some msg⟩) ∧
    global_exception_handler false msg
      = (500, ⟨"Internal server error", some "An unexpected error occurred"⟩) := by
  refine ⟨?_, ?_, rfl, rfl⟩
  · cases debug₁ <;> cases debug₂ <;>
      cases h : summarize_endpoint text max_length style oracle <;>
        simp [serve_summarize, h]
  · intro hv
    cases debug₁ <;>
      simp [serve_summarize, summarize_endpoint, hv, generate_text]

/-- C8, witness: a concrete generation failure surfaced with its reason
while debug is off. -/
theorem c8_witness :
    serve_summarize false "abc" none none (fun _ => Except.error "boom")
      = ⟨500, "Summarization failed: " ++ ("Failed to generate text: " ++ "boom")⟩ :=
  (c8_debug_gating false false "abc" none none (fun _ => Except.error "boom") "boom" "m").2.1
    (by decide)

/-- C10.  The `.pdf` filename gate on `/summarize-pdf` and `/query-pdf` is
case-insensitive: the 400 "Only PDF files are supported" rejection is taken
exactly when the lowercased filename does not end with ".pdf" (on
`/query-pdf`, once the blank-question check that precedes it has passed),
so a name such as "REPORT.PDF" passes the suffix check. -/
theorem c10_pdf_filename_gate (upload : PdfUpload) (question : String)
    (max_length : Option Int) (style : String) (include_sources : Bool)
    (oracle : String → Except String String) :
    (summarize_pdf_endpoint upload max_length style oracle
        = SummarizeOutcome.httpError 400 "Only PDF files are supported"
      ↔ pyEndsWith (pyLower upload.filename) ".pdf" = false) ∧
    (pyStrip question ≠ "" →
      (query_pdf_endpoint upload question include_sources oracle
          = QueryOutcome.httpError 400 "Only PDF files are supported"
        ↔ pyEndsWith (pyLower upload.filename) ".pdf" = false)) ∧
    pyEndsWith (pyLower "REPORT.PDF") ".pdf" = true := by
  refine ⟨?_, ?_, by decide⟩
  · constructor
    · intro h
      by_cases hf : pyEndsWith (pyLower upload.filename) ".pdf" = false
      · exact hf
      · exfalso
        unfold summarize_pdf_endpoint at h
        rw [if_neg hf] at h
        split at h
        · exact absurd h (by decide)
        · split at h
          · exact absurd h (by decide)
          · split at h
            · rename_i e hext
              rw [SummarizeOutcome.httpError.injEq] at h
              exact append_ne_fixed "PDF processing failed: " e
                "Only PDF files are supported" (by decide) (by decide) h.2
            · split at h
              · rw [SummarizeOutcome.httpError.injEq] at h
                exact absurd h.1 (by decide)
              · exact absurd h (by simp)
    · intro hf
      unfold summarize_pdf_endpoint
      rw [if_pos hf]
  · intro hq
    constructor
    · intro h
      by_cases hf : pyEndsWith (pyLower upload.filename) ".pdf" = false
      · exact hf
      · exfalso
        unfold query_pdf_endpoint at h
        rw [if_neg hq, if_neg hf] at h
        split at h
        · exact absurd h (by decide)
        · split at h
          · exact absurd h (by decide)
          · split at h
            · rename_i e hext
              rw [QueryOutcome.httpError.injEq] at h
              exact append_ne_fixed "PDF processing failed: " e
                "Only PDF files are supported" (by decide) (by decide) h.2
            · split at h
              · rw [QueryOutcome.httpError.injEq] at h
                exact absurd h.1 (by decide)
              · exact absurd h (by simp)
    · intro hf
      unfold query_pdf_endpoint
      rw [if_neg hq, if_pos hf]

/-- C10, witness: "REPORT.PDF" passes the suffix gate (the run proceeds to
the byte-validation rejection instead), while "report.txt" is rejected by
the filename gate. -/
theorem c10_witness :
    summarize_pdf_endpoint ⟨"REPORT.PDF", none⟩ none "concise" (fun _ => Except.ok "S")
        = SummarizeOutcome.httpError 400 "Invalid PDF file" ∧
    summarize_pdf_endpoint ⟨"report.txt", none⟩ none "concise" (fun _ => Except.ok "S")
        = SummarizeOutcome.httpError 400 "Only PDF files are supported" := by
  constructor
  · decide
  · exact (c10_pdf_filename_gate ⟨"report.txt", none⟩ "q" none "concise" false
      (fun _ => Except.ok "S")).1.mpr (by decide)

end DocQA
